import Mathlib

/-!
Shallow embedding of the authentication flow controller of
`src/components/Auth.jsx` (React component `Auth` driving an AWS Cognito
identity authority), together with theorems settling the frozen claims
about its specification.

Conventions of the embedding:
* Pure helper functions (`validateEmail`, `validatePassword`,
  `validateUsername`, `validateForm`) are translated directly from their
  regular expressions and conditionals; the ASCII fragment of JavaScript
  string semantics is modelled (`trim`, `toLowerCase`, `\s`, `\d`,
  `[a-z]`, `[A-Z]` are ASCII-scoped, which covers every input the claims
  quantify over).
* The component state (the `formData`, `uiState`, `errors`, `authError`,
  `successMessage` React state hooks) becomes the structure `AuthState`.
* Asynchrony is modelled by an event-dispatch step function on `SysState`:
  a form submit records the pending gateway call (with the form values its
  JavaScript closure captured) and emits the wire call; a completion event
  applies the corresponding callback.  The `useEffect` that clears
  `authError`, `successMessage` and `errors` whenever `uiState.currentView`
  changes is folded into every transition (`viewEffect`), so a state of the
  model is the settled post-commit state between events.
* The `disabled={uiState.isLoading}` attributes on every submit and
  navigation button are modelled as guards on the corresponding events:
  a click event on a disabled or unrendered control is a no-op.
* The two `setTimeout` deferred transitions (after a successful
  verification and after a successful password reset) are modelled as an
  armed `timer` fired by a separate event.
-/

/-- ASCII whitespace, the fragment of the JavaScript `\s` class and of the
characters removed by `String.prototype.trim` that the claims exercise. -/
def isWSChar (c : Char) : Bool :=
  c == ' ' || c == '\t' || c == '\n' || c == '\r' || c == '\x0b' || c == '\x0c'

/-- List-level trimming: drop ASCII whitespace from both ends. -/
def trimChars (l : List Char) : List Char :=
  ((l.dropWhile isWSChar).reverse.dropWhile isWSChar).reverse

/-- Embedding of JavaScript `s.trim()` (ASCII fragment). -/
def jsTrim (s : String) : String := ⟨trimChars s.data⟩

/-- Embedding of JavaScript `toLowerCase` on one character (ASCII
fragment: only `A`-`Z` are mapped). -/
def lowerAscii (c : Char) : Char :=
  if c.isUpper then Char.ofNat (c.toNat + 32) else c

/-- Embedding of JavaScript `s.toLowerCase()` (ASCII fragment). -/
def jsToLower (s : String) : String := ⟨s.data.map lowerAscii⟩

/-- The punctuation set of `PASSWORD_REGEX` in Auth.jsx: `[@$!%*?&]`. -/
def specialChar (c : Char) : Bool :=
  c == '@' || c == '$' || c == '!' || c == '%' || c == '*' || c == '?' || c == '&'

/-- The character class of the body of `PASSWORD_REGEX`:
`[A-Za-z\d@$!%*?&]`. -/
def passAllowedChar (c : Char) : Bool :=
  c.isAlpha || c.isDigit || specialChar c

/-- Semantics of `PASSWORD_REGEX =
`/^(?=.*[a-z])(?=.*[A-Z])(?=.*\d)(?=.*[@$!%*?&])[A-Za-z\d@$!%*?&]{8,}$/`
on the character list of the password: each lookahead demands one character
of its class, the body demands every character allowed and length at least
8.  (The body excludes line terminators, so the dot in the lookaheads is
unrestricted over any string the body accepts.) -/
def passOK (l : List Char) : Bool :=
  l.any (fun c => c.isLower) && l.any (fun c => c.isUpper) &&
  l.any (fun c => c.isDigit) && l.any specialChar &&
  l.all passAllowedChar && decide (8 ≤ l.length)

/-- `validatePassword` of Auth.jsx: `PASSWORD_REGEX.test(password)`. -/
def validatePassword (password : String) : Bool := passOK password.data

/-- Semantics of the email regex `/^[^\s@]+@[^\s@]+\.[^\s@]+$/` of
`validateEmail`: exactly one `@`; a non-empty whitespace-free local part; a
domain that is whitespace-free and splits as `c ++ "." ++ d` with `c`, `d`
non-empty, i.e. contains a dot at an interior position. -/
def validateEmail (email : String) : Bool :=
  match email.data.splitOn '@' with
  | [loc, dom] =>
    !loc.isEmpty && !dom.isEmpty &&
    loc.all (fun c => !isWSChar c) && dom.all (fun c => !isWSChar c) &&
    ((dom.drop 1).dropLast.contains '.')
  | _ => false

/-- `validateUsername` of Auth.jsx:
`username.length >= 3 && /^[a-zA-Z0-9_]+$/.test(username)`. -/
def validateUsername (username : String) : Bool :=
  decide (3 ≤ username.length) &&
  username.data.all (fun c => c.isAlpha || c.isDigit || c == '_')

/-- The `formData` state hook of the `Auth` component. -/
structure FormData where
  username : String
  password : String
  email : String
  verificationCode : String
  resetCode : String
  newPassword : String
  confirmPassword : String
deriving DecidableEq, Repr

/-- The values of `uiState.currentView`. -/
inductive View
  | login
  | signup
  | verification
  | forgotPassword
deriving DecidableEq, Repr

/-- The field-scoped error messages (`errors` state hook); the empty string
models an absent key of the JavaScript object (the code only ever stores
non-empty messages). -/
structure Errors where
  username : String := ""
  password : String := ""
  email : String := ""
  confirmPassword : String := ""
  verificationCode : String := ""
  resetCode : String := ""
  newPassword : String := ""
deriving DecidableEq, Repr

/-- The empty `errors` object. -/
def noErrors : Errors := {}

/-- The keys accepted by `validateForm` in Auth.jsx (note `resetPassword`
is a validation key, not a view). -/
inductive FormKind
  | login
  | signup
  | verification
  | resetPassword
deriving DecidableEq, Repr

/-- `validateForm` of Auth.jsx: computes the fresh `errors` object for a
form.  The submit handlers proceed exactly when the result is empty
(`Object.keys(newErrors).length === 0`). -/
def validateForm (k : FormKind) (f : FormData) : Errors :=
  match k with
  | FormKind.login =>
    { username := if jsTrim f.username = "" then "Username is required" else ""
      password := if f.password = "" then "Password is required" else "" }
  | FormKind.signup =>
    { username := if validateUsername f.username then "" else
        "Username must be at least 3 characters and contain only letters, numbers, and underscores"
      email := if validateEmail f.email then "" else "Please enter a valid email address"
      password := if validatePassword f.password then "" else
        "Password must be at least 8 characters with uppercase, lowercase, number, and special character"
      confirmPassword := if f.password = f.confirmPassword then "" else "Passwords do not match" }
  | FormKind.verification =>
    { verificationCode := if jsTrim f.verificationCode = "" then "Verification code is required" else "" }
  | FormKind.resetPassword =>
    { resetCode := if jsTrim f.resetCode = "" then "Reset code is required" else ""
      newPassword := if validatePassword f.newPassword then "" else
        "Password must be at least 8 characters with uppercase, lowercase, number, and special character" }

/-- Full component state of `Auth` (the presentation-only
`showPassword`-style toggles and focus ref are omitted). -/
structure AuthState where
  formData : FormData
  currentView : View
  isLoading : Bool
  resetCodeSent : Bool
  errors : Errors
  authError : String
  successMessage : String
deriving DecidableEq, Repr

/-- The wire calls issued to the Cognito identity authority, with the
arguments exactly as the code passes them. -/
inductive GatewayCall
  | authenticate (username password : String)
  | register (username password email : String)
  | confirmRegistration (username code : String)
  | resendConfirmationCode (username : String)
  | requestPasswordReset (username : String)
  | confirmPasswordReset (username code newPassword : String)
deriving DecidableEq, Repr

/-- An in-flight form-submission call, carrying the `formData` values the
submitting handler's JavaScript closure captured (completion callbacks
read these, not the live state). -/
inductive PendingCall
  | auth (username password : String)
  | signup (username password email : String)
  | confirmReg (username code : String)
  | forgot (username : String)
  | confirmReset (username code newPassword : String)
deriving DecidableEq, Repr

/-- The two `setTimeout`-deferred transitions. -/
inductive TimerKind
  | verifyDone
  | resetDone
deriving DecidableEq, Repr

/-- A raw Cognito failure descriptor (`err.code`, `err.message`); the
empty string models an absent property. -/
structure CogErr where
  code : String
  message : String
deriving DecidableEq, Repr

/-- Result delivered to a completion callback. -/
inductive CallResult
  | ok
  | fail (err : CogErr)
deriving DecidableEq, Repr

/-- JavaScript `m || d` on message strings. -/
def errMsgOr (m d : String) : String := if m = "" then d else m

/-- System state: component state plus the in-flight form call, the number
of outstanding fire-and-forget resend calls, and the armed timer. -/
structure SysState where
  st : AuthState
  pending : Option PendingCall
  resendPending : Nat
  timer : Option TimerKind
deriving DecidableEq, Repr

/-- The editable form fields (`name` attributes). -/
inductive FieldId
  | username
  | password
  | email
  | verificationCode
  | resetCode
  | newPassword
  | confirmPassword
deriving DecidableEq, Repr

/-- Write one field of `formData` (the computed-key spread in
`handleInputChange`). -/
def setField (f : FormData) (fld : FieldId) (v : String) : FormData :=
  match fld with
  | FieldId.username => { f with username := v }
  | FieldId.password => { f with password := v }
  | FieldId.email => { f with email := v }
  | FieldId.verificationCode => { f with verificationCode := v }
  | FieldId.resetCode => { f with resetCode := v }
  | FieldId.newPassword => { f with newPassword := v }
  | FieldId.confirmPassword => { f with confirmPassword := v }

/-- Clear one field-scoped error (the `if (errors[name])` branch of
`handleInputChange`; writing the empty string is the same either way). -/
def clearFieldError (e : Errors) (fld : FieldId) : Errors :=
  match fld with
  | FieldId.username => { e with username := "" }
  | FieldId.password => { e with password := "" }
  | FieldId.email => { e with email := "" }
  | FieldId.verificationCode => { e with verificationCode := "" }
  | FieldId.resetCode => { e with resetCode := "" }
  | FieldId.newPassword => { e with newPassword := "" }
  | FieldId.confirmPassword => { e with confirmPassword := "" }

/-- Which fields carry an editable input in each view, from the render
functions (`readOnly` and unrendered fields are not editable). -/
def editable (v : View) (resetSent : Bool) (fld : FieldId) : Bool :=
  match v, fld with
  | View.login, FieldId.username => true
  | View.login, FieldId.password => true
  | View.signup, FieldId.username => true
  | View.signup, FieldId.email => true
  | View.signup, FieldId.password => true
  | View.signup, FieldId.confirmPassword => true
  | View.verification, FieldId.verificationCode => true
  | View.forgotPassword, FieldId.username => !resetSent
  | View.forgotPassword, FieldId.resetCode => resetSent
  | View.forgotPassword, FieldId.newPassword => resetSent
  | _, _ => false

/-- The mode-switch buttons actually rendered: their source view, target
view, and the `additionalState` they pass to `switchView`. -/
def navAvailable (st : AuthState) (v : View) (extra : Option Bool) : Bool :=
  match st.currentView, v, extra with
  | View.login, View.signup, none => true
  | View.login, View.forgotPassword, none => true
  | View.signup, View.login, none => true
  | View.forgotPassword, View.login, some false => true
  | _, _, _ => false

/-- The `useEffect` keyed on `uiState.currentView`: after any event whose
net result changed the view, clear `authError`, `successMessage` and
`errors`. -/
def viewEffect (oldView : View) (s : AuthState) : AuthState :=
  { s with
    authError := if s.currentView = oldView then s.authError else ""
    successMessage := if s.currentView = oldView then s.successMessage else ""
    errors := if s.currentView = oldView then s.errors else noErrors }

/-- `handleResendCode` of Auth.jsx, parameterised by the username string
its closure reads: guard on the trimmed username, then clear `authError`
and issue the resend call. -/
def resendCore (u : String) (st : AuthState) : AuthState × List GatewayCall :=
  ({ st with
      authError := if jsTrim u = "" then "Username is required to resend code" else "" },
   if jsTrim u = "" then [] else [GatewayCall.resendConfirmationCode (jsTrim u)])

/-- User and system events driving the controller. -/
inductive Event
  | input (fld : FieldId) (v : String)
  | submitLogin
  | submitSignup
  | submitVerification
  | submitForgotRequest
  | submitResetPassword
  | clickResend
  | clickSwitch (v : View) (extra : Option Bool)
  | completeAuth (r : CallResult)
  | completeSignup (r : CallResult)
  | completeVerification (r : CallResult)
  | completeForgot (r : CallResult)
  | completeReset (r : CallResult)
  | completeResend (r : CallResult)
  | timerFire
deriving DecidableEq, Repr

/-- `handleInputChange`: write the field, clear its field error, clear the
top-level `authError` (the success message is left alone). -/
def doInput (fld : FieldId) (v : String) (s : SysState) : SysState × List GatewayCall :=
  if editable s.st.currentView s.st.resetCodeSent fld then
    ({ s with st := { s.st with
        formData := setField s.st.formData fld v
        errors := clearFieldError s.st.errors fld
        authError := "" } }, [])
  else (s, [])

/-- `handleLogin` up to issuing `authenticateUser`. -/
def doSubmitLogin (s : SysState) : SysState × List GatewayCall :=
  if s.st.currentView = View.login ∧ s.st.isLoading = false then
    let errs := validateForm FormKind.login s.st.formData
    if errs = noErrors then
      ({ s with
          st := { s.st with errors := errs, isLoading := true, authError := "" }
          pending := some (PendingCall.auth s.st.formData.username s.st.formData.password) },
       [GatewayCall.authenticate (jsTrim s.st.formData.username) s.st.formData.password])
    else ({ s with st := { s.st with errors := errs } }, [])
  else (s, [])

/-- The `authenticateUser` callbacks of `handleLogin`. -/
def doCompleteAuth (r : CallResult) (s : SysState) : SysState × List GatewayCall :=
  match s.pending with
  | some (PendingCall.auth u _) =>
    let s0 := { s with pending := none }
    match r with
    | CallResult.ok =>
      ({ s0 with st := { s0.st with successMessage := "Login successful!" } }, [])
    | CallResult.fail err =>
      let st1 := { s0.st with isLoading := false }
      if err.code = "UserNotConfirmedException" then
        let st2 := { st1 with
          currentView := View.verification
          authError := "Please verify your account. A new verification code will be sent." }
        let rc := resendCore u st2
        ({ s0 with
            st := viewEffect s.st.currentView rc.1
            resendPending := s0.resendPending + rc.2.length }, rc.2)
      else
        ({ s0 with st := { st1 with
            authError := errMsgOr err.message "Login failed. Please try again." } }, [])
  | _ => (s, [])

/-- `handleSignup` up to issuing `userPool.signUp`. -/
def doSubmitSignup (s : SysState) : SysState × List GatewayCall :=
  if s.st.currentView = View.signup ∧ s.st.isLoading = false then
    let errs := validateForm FormKind.signup s.st.formData
    if errs = noErrors then
      ({ s with
          st := { s.st with errors := errs, isLoading := true, authError := "" }
          pending := some (PendingCall.signup s.st.formData.username s.st.formData.password
            s.st.formData.email) },
       [GatewayCall.register (jsTrim s.st.formData.username) s.st.formData.password
          (jsToLower (jsTrim s.st.formData.email))])
    else ({ s with st := { s.st with errors := errs } }, [])
  else (s, [])

/-- The `signUp` callback of `handleSignup`. -/
def doCompleteSignup (r : CallResult) (s : SysState) : SysState × List GatewayCall :=
  match s.pending with
  | some (PendingCall.signup _ _ _) =>
    let s0 := { s with pending := none }
    match r with
    | CallResult.fail err =>
      ({ s0 with st := { s0.st with
          isLoading := false
          authError := errMsgOr err.message "Signup failed. Please try again." } }, [])
    | CallResult.ok =>
      let st1 := { s0.st with
        isLoading := false
        successMessage := "Account created successfully! Please check your email for verification code."
        currentView := View.verification }
      ({ s0 with st := viewEffect s.st.currentView st1 }, [])
  | _ => (s, [])

/-- `handleVerification` up to issuing `confirmRegistration`. -/
def doSubmitVerification (s : SysState) : SysState × List GatewayCall :=
  if s.st.currentView = View.verification ∧ s.st.isLoading = false then
    let errs := validateForm FormKind.verification s.st.formData
    if errs = noErrors then
      ({ s with
          st := { s.st with errors := errs, isLoading := true, authError := "" }
          pending := some (PendingCall.confirmReg s.st.formData.username
            s.st.formData.verificationCode) },
       [GatewayCall.confirmRegistration (jsTrim s.st.formData.username)
          (jsTrim s.st.formData.verificationCode)])
    else ({ s with st := { s.st with errors := errs } }, [])
  else (s, [])

/-- The `confirmRegistration` callback of `handleVerification`; success
arms the 2-second deferred switch back to login. -/
def doCompleteVerification (r : CallResult) (s : SysState) : SysState × List GatewayCall :=
  match s.pending with
  | some (PendingCall.confirmReg _ _) =>
    let s0 := { s with pending := none }
    match r with
    | CallResult.fail err =>
      ({ s0 with st := { s0.st with
          isLoading := false
          authError := errMsgOr err.message "Verification failed. Please try again." } }, [])
    | CallResult.ok =>
      ({ s0 with
          st := { s0.st with
            isLoading := false
            successMessage := "Account verified successfully! You can now log in." }
          timer := some TimerKind.verifyDone }, [])
  | _ => (s, [])

/-- `handleForgotPasswordRequest` up to issuing `forgotPassword`; the
guard is only presence of the trimmed username. -/
def doSubmitForgotRequest (s : SysState) : SysState × List GatewayCall :=
  if s.st.currentView = View.forgotPassword ∧ s.st.resetCodeSent = false ∧
      s.st.isLoading = false then
    if jsTrim s.st.formData.username = "" then
      ({ s with st := { s.st with
          errors := { noErrors with username := "Username is required" } } }, [])
    else
      ({ s with
          st := { s.st with isLoading := true, authError := "" }
          pending := some (PendingCall.forgot s.st.formData.username) },
       [GatewayCall.requestPasswordReset (jsTrim s.st.formData.username)])
  else (s, [])

/-- The `forgotPassword` callbacks. -/
def doCompleteForgot (r : CallResult) (s : SysState) : SysState × List GatewayCall :=
  match s.pending with
  | some (PendingCall.forgot _) =>
    let s0 := { s with pending := none }
    match r with
    | CallResult.ok =>
      ({ s0 with st := { s0.st with
          isLoading := false
          successMessage := "Reset code sent to your email."
          resetCodeSent := true } }, [])
    | CallResult.fail err =>
      ({ s0 with st := { s0.st with
          isLoading := false
          authError := errMsgOr err.message "Failed to send reset code. Please try again." } }, [])
  | _ => (s, [])

/-- `handleResetPasswordSubmit` up to issuing `confirmPassword`. -/
def doSubmitResetPassword (s : SysState) : SysState × List GatewayCall :=
  if s.st.currentView = View.forgotPassword ∧ s.st.resetCodeSent = true ∧
      s.st.isLoading = false then
    let errs := validateForm FormKind.resetPassword s.st.formData
    if errs = noErrors then
      ({ s with
          st := { s.st with errors := errs, isLoading := true, authError := "" }
          pending := some (PendingCall.confirmReset s.st.formData.username
            s.st.formData.resetCode s.st.formData.newPassword) },
       [GatewayCall.confirmPasswordReset (jsTrim s.st.formData.username)
          (jsTrim s.st.formData.resetCode) s.st.formData.newPassword])
    else ({ s with st := { s.st with errors := errs } }, [])
  else (s, [])

/-- The `confirmPassword` callbacks; success arms the 2-second deferred
switch back to login. -/
def doCompleteReset (r : CallResult) (s : SysState) : SysState × List GatewayCall :=
  match s.pending with
  | some (PendingCall.confirmReset _ _ _) =>
    let s0 := { s with pending := none }
    match r with
    | CallResult.ok =>
      ({ s0 with
          st := { s0.st with
            isLoading := false
            successMessage := "Password reset successfully! You can now log in." }
          timer := some TimerKind.resetDone }, [])
    | CallResult.fail err =>
      ({ s0 with st := { s0.st with
          isLoading := false
          authError := errMsgOr err.message "Password reset failed. Please try again." } }, [])
  | _ => (s, [])

/-- The Resend Code button of the verification view (enabled while not
loading); calls `handleResendCode` on the live username. -/
def doClickResend (s : SysState) : SysState × List GatewayCall :=
  if s.st.currentView = View.verification ∧ s.st.isLoading = false then
    let rc := resendCore s.st.formData.username s.st
    ({ s with st := rc.1, resendPending := s.resendPending + rc.2.length }, rc.2)
  else (s, [])

/-- The `resendConfirmationCode` callback of `handleResendCode`: a failure
sets `authError` without clearing `successMessage`, a success sets
`successMessage` without clearing `authError`. -/
def doCompleteResend (r : CallResult) (s : SysState) : SysState × List GatewayCall :=
  if 0 < s.resendPending then
    match r with
    | CallResult.ok =>
      ({ s with
          st := { s.st with
            successMessage := "A new verification code has been sent to your email." }
          resendPending := s.resendPending - 1 }, [])
    | CallResult.fail err =>
      ({ s with
          st := { s.st with
            authError := errMsgOr err.message "Failed to resend code. Please try again." }
          resendPending := s.resendPending - 1 }, [])
  else (s, [])

/-- `switchView` behind a rendered, enabled navigation button. -/
def doClickSwitch (v : View) (extra : Option Bool) (s : SysState) : SysState × List GatewayCall :=
  if s.st.isLoading = false ∧ navAvailable s.st v extra = true then
    let st1 := { s.st with
      currentView := v
      resetCodeSent := extra.getD s.st.resetCodeSent }
    ({ s with st := viewEffect s.st.currentView st1 }, [])
  else (s, [])

/-- The armed `setTimeout` bodies: after verification success, switch to
login clearing `verificationCode` and `password`; after reset success,
switch to login clearing `resetCode`, `newPassword` and `password` and
lowering `resetCodeSent`. -/
def doTimerFire (s : SysState) : SysState × List GatewayCall :=
  match s.timer with
  | some TimerKind.verifyDone =>
    let st1 := { s.st with
      currentView := View.login
      formData := { s.st.formData with verificationCode := "", password := "" } }
    ({ s with st := viewEffect s.st.currentView st1, timer := none }, [])
  | some TimerKind.resetDone =>
    let st1 := { s.st with
      currentView := View.login
      resetCodeSent := false
      formData := { s.st.formData with resetCode := "", newPassword := "", password := "" } }
    ({ s with st := viewEffect s.st.currentView st1, timer := none }, [])
  | none => (s, [])

/-- One step of the controller: dispatch an event. -/
def dispatch (e : Event) (s : SysState) : SysState × List GatewayCall :=
  match e with
  | Event.input fld v => doInput fld v s
  | Event.submitLogin => doSubmitLogin s
  | Event.submitSignup => doSubmitSignup s
  | Event.submitVerification => doSubmitVerification s
  | Event.submitForgotRequest => doSubmitForgotRequest s
  | Event.submitResetPassword => doSubmitResetPassword s
  | Event.clickResend => doClickResend s
  | Event.clickSwitch v extra => doClickSwitch v extra s
  | Event.completeAuth r => doCompleteAuth r s
  | Event.completeSignup r => doCompleteSignup r s
  | Event.completeVerification r => doCompleteVerification r s
  | Event.completeForgot r => doCompleteForgot r s
  | Event.completeReset r => doCompleteReset r s
  | Event.completeResend r => doCompleteResend r s
  | Event.timerFire => doTimerFire s

/-- The state at mount. -/
def initialState : SysState :=
  { st :=
      { formData :=
          { username := "", password := "", email := "", verificationCode := ""
            resetCode := "", newPassword := "", confirmPassword := "" }
        currentView := View.login
        isLoading := false
        resetCodeSent := false
        errors := noErrors
        authError := ""
        successMessage := "" }
    pending := none
    resendPending := 0
    timer := none }

/-- Run a list of events from the mount state, accumulating every gateway
call issued along the way. -/
def run (es : List Event) : SysState × List GatewayCall :=
  es.foldl (fun acc e =>
    let r := dispatch e acc.1
    (r.1, acc.2 ++ r.2)) (initialState, [])

/-- Count the resend calls in a list of gateway calls. -/
def countResend (cs : List GatewayCall) : Nat :=
  cs.countP (fun c => match c with
    | GatewayCall.resendConfirmationCode _ => true
    | _ => false)

/-- The identifier (Cognito `Username`) carried by a gateway call. -/
def callIdent : GatewayCall → String
  | GatewayCall.authenticate u _ => u
  | GatewayCall.register u _ _ => u
  | GatewayCall.confirmRegistration u _ => u
  | GatewayCall.resendConfirmationCode u => u
  | GatewayCall.requestPasswordReset u => u
  | GatewayCall.confirmPasswordReset u _ _ => u

/-- A string with no leading and no trailing ASCII whitespace, i.e. a
trimmed identifier. -/
def noEdgeWS (s : String) : Bool :=
  (match s.data.head? with | some a => !isWSChar a | none => true) &&
  (match s.data.getLast? with | some a => !isWSChar a | none => true)

/-- The single-flight invariant: whenever a form-submission gateway call
is in flight, the loading flag is up. -/
def loadInv (s : SysState) : Prop := s.pending.isSome = true → s.st.isLoading = true

/-- The five form-submit events. -/
def isSubmitEvent : Event → Bool
  | Event.submitLogin => true
  | Event.submitSignup => true
  | Event.submitVerification => true
  | Event.submitForgotRequest => true
  | Event.submitResetPassword => true
  | _ => false

/-- Whether an event delivers the result of the in-flight form call. -/
def completesPending (e : Event) (s : SysState) : Bool :=
  match e, s.pending with
  | Event.completeAuth _, some (PendingCall.auth _ _) => true
  | Event.completeSignup _, some (PendingCall.signup _ _ _) => true
  | Event.completeVerification _, some (PendingCall.confirmReg _ _) => true
  | Event.completeForgot _, some (PendingCall.forgot _) => true
  | Event.completeReset _, some (PendingCall.confirmReset _ _ _) => true
  | _, _ => false

/-- Auxiliary: a character of each required class is allowed by the body
of `PASSWORD_REGEX`. -/
theorem lower_passAllowed (c : Char) (h : c.isLower = true) : passAllowedChar c = true := by
  simp [passAllowedChar, Char.isAlpha, h]

theorem upper_passAllowed (c : Char) (h : c.isUpper = true) : passAllowedChar c = true := by
  simp [passAllowedChar, Char.isAlpha, h]

theorem digit_passAllowed (c : Char) (h : c.isDigit = true) : passAllowedChar c = true := by
  simp [passAllowedChar, h]

theorem special_passAllowed (c : Char) (h : specialChar c = true) : passAllowedChar c = true := by
  simp [passAllowedChar, h]

/-- C7 counterexample: `"aaaaaaaa"` has 8 characters and lacks the
uppercase class (among others); appending a character of that missing
class (`A`) still leaves `validatePassword` false, refuting the claimed
monotonicity "adding a character of the missing class makes
validatePassword return true". -/
theorem password_monotonicity_cex :
    validatePassword "aaaaaaaa" = false ∧
    "aaaaaaaa".data.any (fun c => c.isUpper) = false ∧
    validatePassword "aaaaaaaaA" = false := by decide

/-- C7 amended: any password lacking one of the four classes, or shorter
than 8, fails `validatePassword`; and when exactly one class is missing —
the other three present, every character drawn from the regex body's
class, length at least 7 — appending one allowed character of the missing
class makes the password pass. -/
theorem password_policy_amended :
    (∀ p : String,
      (p.data.any (fun c => c.isLower) = false ∨ p.data.any (fun c => c.isUpper) = false ∨
       p.data.any (fun c => c.isDigit) = false ∨ p.data.any specialChar = false ∨
       p.data.length < 8) → validatePassword p = false) ∧
    (∀ (p : List Char) (c : Char), p.all passAllowedChar = true → 7 ≤ p.length →
      p.any (fun x => x.isUpper) = true → p.any (fun x => x.isDigit) = true →
      p.any specialChar = true → c.isLower = true → passOK (p ++ [c]) = true) ∧
    (∀ (p : List Char) (c : Char), p.all passAllowedChar = true → 7 ≤ p.length →
      p.any (fun x => x.isLower) = true → p.any (fun x => x.isDigit) = true →
      p.any specialChar = true → c.isUpper = true → passOK (p ++ [c]) = true) ∧
    (∀ (p : List Char) (c : Char), p.all passAllowedChar = true → 7 ≤ p.length →
      p.any (fun x => x.isLower) = true → p.any (fun x => x.isUpper) = true →
      p.any specialChar = true → c.isDigit = true → passOK (p ++ [c]) = true) ∧
    (∀ (p : List Char) (c : Char), p.all passAllowedChar = true → 7 ≤ p.length →
      p.any (fun x => x.isLower) = true → p.any (fun x => x.isUpper) = true →
      p.any (fun x => x.isDigit) = true → specialChar c = true → passOK (p ++ [c]) = true) := by
  refine ⟨?_, ?_, ?_, ?_, ?_⟩
  · intro p h
    unfold validatePassword passOK
    rcases h with h | h | h | h | h
    · rw [h]; simp
    · rw [h]; simp
    · rw [h]; simp
    · rw [h]; simp
    · have hlen : decide (8 ≤ p.data.length) = false := by
        simp only [decide_eq_false_iff_not]; omega
      rw [hlen]; simp
  · intro p c hall hlen hup hdig hsp hc
    unfold passOK
    simp only [List.any_append, List.all_append, List.length_append, List.any_cons,
      List.any_nil, List.all_cons, List.all_nil, hall, hup, hdig, hsp, hc,
      lower_passAllowed c hc, Bool.or_true, Bool.true_or, Bool.and_true, Bool.true_and,
      Bool.or_false, Bool.and_self]
    simp only [decide_eq_true_eq, List.length_cons, List.length_nil]
    omega
  · intro p c hall hlen hlo hdig hsp hc
    unfold passOK
    simp only [List.any_append, List.all_append, List.length_append, List.any_cons,
      List.any_nil, List.all_cons, List.all_nil, hall, hlo, hdig, hsp, hc,
      upper_passAllowed c hc, Bool.or_true, Bool.true_or, Bool.and_true, Bool.true_and,
      Bool.or_false, Bool.and_self]
    simp only [decide_eq_true_eq, List.length_cons, List.length_nil]
    omega
  · intro p c hall hlen hlo hup hsp hc
    unfold passOK
    simp only [List.any_append, List.all_append, List.length_append, List.any_cons,
      List.any_nil, List.all_cons, List.all_nil, hall, hlo, hup, hsp, hc,
      digit_passAllowed c hc, Bool.or_true, Bool.true_or, Bool.and_true, Bool.true_and,
      Bool.or_false, Bool.and_self]
    simp only [decide_eq_true_eq, List.length_cons, List.length_nil]
    omega
  · intro p c hall hlen hlo hup hdig hc
    unfold passOK
    simp only [List.any_append, List.all_append, List.length_append, List.any_cons,
      List.any_nil, List.all_cons, List.all_nil, hall, hlo, hup, hdig, hc,
      special_passAllowed c hc, Bool.or_true, Bool.true_or, Bool.and_true, Bool.true_and,
      Bool.or_false, Bool.and_self]
    simp only [decide_eq_true_eq, List.length_cons, List.length_nil]
    omega

/-- Witness for `password_policy_amended` at concrete inputs: a password
that is too short fails, and `Abcdef1` (which has the three other classes
and only lacks punctuation) passes once `!` is appended. -/
theorem password_policy_amended_witness :
    validatePassword "aaaaaaa" = false ∧ passOK ("Abcdef1".data ++ ['!']) = true := by
  constructor
  · exact password_policy_amended.1 "aaaaaaa" (by decide)
  · exact password_policy_amended.2.2.2.2 "Abcdef1".data '!'
      (by decide) (by decide) (by decide) (by decide) (by decide) (by decide)

/-- C2 counterexample: a signup submit with a valid form whose `register`
call fails with the duplicate-account failure
(`UsernameExistsException` / "User already exists") leaves the flow in
`signup` — no transition to verification, no resend call, no stashed
guidance; the code's signup callback treats every failure alike. -/
theorem signup_duplicate_stays_signup_cex :
    (run [Event.clickSwitch View.signup none,
          Event.input FieldId.username "ann_01",
          Event.input FieldId.email "a@b.co",
          Event.input FieldId.password "Strong1!",
          Event.input FieldId.confirmPassword "Strong1!",
          Event.submitSignup,
          Event.completeSignup (CallResult.fail
            { code := "UsernameExistsException", message := "User already exists" })]).1.st.currentView
      = View.signup ∧
    countResend (run [Event.clickSwitch View.signup none,
          Event.input FieldId.username "ann_01",
          Event.input FieldId.email "a@b.co",
          Event.input FieldId.password "Strong1!",
          Event.input FieldId.confirmPassword "Strong1!",
          Event.submitSignup,
          Event.completeSignup (CallResult.fail
            { code := "UsernameExistsException", message := "User already exists" })]).2 = 0 := by
  decide

/-- C3 counterexample: switching from login to signup leaves the typed
password `"secret"` in place — a transition into a new flow mode that does
not clear the password-bearing fields. -/
theorem switch_keeps_password_cex :
    (run [Event.input FieldId.username "ann",
          Event.input FieldId.password "secret",
          Event.clickSwitch View.signup none]).1.st.currentView = View.signup ∧
    (run [Event.input FieldId.username "ann",
          Event.input FieldId.password "secret",
          Event.clickSwitch View.signup none]).1.st.formData.password = "secret" := by
  decide

/-- C4 counterexample: an authenticate failure with no provider code and
message "User is not confirmed." is not classified UnverifiedAccount — the
flow stays in login and no resend is issued, because the code matches only
`err.code === UserNotConfirmedException` and has no case-insensitive
substring fallback on the message. -/
theorem message_fallback_absent_cex :
    (run [Event.input FieldId.username "ann_01",
          Event.input FieldId.password "x",
          Event.submitLogin,
          Event.completeAuth (CallResult.fail
            { code := "", message := "User is not confirmed." })]).1.st.currentView
      = View.login ∧
    countResend (run [Event.input FieldId.username "ann_01",
          Event.input FieldId.password "x",
          Event.submitLogin,
          Event.completeAuth (CallResult.fail
            { code := "", message := "User is not confirmed." })]).2 = 0 := by
  decide

/-- C5 counterexample: a reachable state with the top-level error and the
top-level success message simultaneously non-empty — after an unverified
login redirects to verification, a successful resend leaves the success
banner up, and a second resend that fails sets the error without clearing
it. -/
theorem error_success_both_nonempty_cex :
    (run [Event.input FieldId.username "ann_01",
          Event.input FieldId.password "x",
          Event.submitLogin,
          Event.completeAuth (CallResult.fail
            { code := "UserNotConfirmedException", message := "User is not confirmed." }),
          Event.completeResend CallResult.ok,
          Event.clickResend,
          Event.completeResend (CallResult.fail
            { code := "NetworkError", message := "Network error" })]).1.st.authError
      = "Network error" ∧
    (run [Event.input FieldId.username "ann_01",
          Event.input FieldId.password "x",
          Event.submitLogin,
          Event.completeAuth (CallResult.fail
            { code := "UserNotConfirmedException", message := "User is not confirmed." }),
          Event.completeResend CallResult.ok,
          Event.clickResend,
          Event.completeResend (CallResult.fail
            { code := "NetworkError", message := "Network error" })]).1.st.successMessage
      = "A new verification code has been sent to your email." := by
  decide

/-- C8 counterexample: in the reset-request form, the identifier `"a!"`
fails the identifier-validity check (`validateUsername`), yet the
`requestPasswordReset` gateway call is issued — the code guards only on
presence of the trimmed username, not validity. -/
theorem reset_request_no_validity_check_cex :
    validateUsername "a!" = false ∧
    (run [Event.clickSwitch View.forgotPassword none,
          Event.input FieldId.username "a!",
          Event.submitForgotRequest]).2
      = [GatewayCall.requestPasswordReset "a!"] := by
  decide

/-- Login validation succeeds iff the trimmed username and the password
are present. -/
theorem validateForm_login_ok (f : FormData) (hu : jsTrim f.username ≠ "")
    (hp : f.password ≠ "") : validateForm FormKind.login f = noErrors := by
  simp [validateForm, noErrors, hu, hp]

/-- C1: for every login submit that passes validation and whose
authenticate call fails with the failure classified UnverifiedAccount
(provider code `UserNotConfirmedException`), the flow mode becomes the
verification mode, the typed identifier is preserved unchanged across the
transition, and exactly one `resendConfirmationCode` call is issued across
the submit and its completion. -/
theorem login_unverified_to_verify_resend_once (s : SysState) (err : CogErr)
    (hview : s.st.currentView = View.login) (hload : s.st.isLoading = false)
    (hu : jsTrim s.st.formData.username ≠ "") (hp : s.st.formData.password ≠ "")
    (hcode : err.code = "UserNotConfirmedException") :
    ((dispatch (Event.completeAuth (CallResult.fail err))
        (dispatch Event.submitLogin s).1).1.st.currentView = View.verification) ∧
    ((dispatch (Event.completeAuth (CallResult.fail err))
        (dispatch Event.submitLogin s).1).1.st.formData.username = s.st.formData.username) ∧
    countResend ((dispatch Event.submitLogin s).2 ++
        (dispatch (Event.completeAuth (CallResult.fail err))
          (dispatch Event.submitLogin s).1).2) = 1 := by
  have hv : validateForm FormKind.login s.st.formData = noErrors :=
    validateForm_login_ok _ hu hp
  simp [dispatch, doSubmitLogin, doCompleteAuth, resendCore, viewEffect, countResend,
    hview, hload, hv, hcode, hu]

/-- Witness for `login_unverified_to_verify_resend_once` on a concrete
reachable state. -/
theorem login_unverified_witness :
    ((dispatch (Event.completeAuth (CallResult.fail
        { code := "UserNotConfirmedException", message := "User is not confirmed." }))
      (dispatch Event.submitLogin
        (run [Event.input FieldId.username "ann_01",
              Event.input FieldId.password "x"]).1).1).1.st.currentView
      = View.verification) := by
  exact (login_unverified_to_verify_resend_once
    (run [Event.input FieldId.username "ann_01", Event.input FieldId.password "x"]).1
    { code := "UserNotConfirmedException", message := "User is not confirmed." }
    (by decide) (by decide) (by decide) (by decide) (by decide)).1

/-- C2 amended: on a register failure the controller shows the failure's
message (or the default) as the top-level error and stays in the signup
mode; no pending context is stashed, no resendConfirmationCode call is
issued, and the form fields are untouched.  (The code's signup callback
has no special DuplicateAccount/unverified branch.) -/
theorem signup_failure_shows_error_stays (s : SysState) (err : CogErr)
    (u p em : String) (hpend : s.pending = some (PendingCall.signup u p em)) :
    ((dispatch (Event.completeSignup (CallResult.fail err)) s).1.st.currentView
        = s.st.currentView) ∧
    ((dispatch (Event.completeSignup (CallResult.fail err)) s).1.st.authError
        = errMsgOr err.message "Signup failed. Please try again.") ∧
    ((dispatch (Event.completeSignup (CallResult.fail err)) s).2 = []) ∧
    ((dispatch (Event.completeSignup (CallResult.fail err)) s).1.st.formData
        = s.st.formData) := by
  simp [dispatch, doCompleteSignup, hpend]

/-- Witness for `signup_failure_shows_error_stays` on the concrete
reachable state after a valid signup submit. -/
theorem signup_failure_witness :
    ((dispatch (Event.completeSignup (CallResult.fail
        { code := "UsernameExistsException", message := "User already exists" }))
      (run [Event.clickSwitch View.signup none,
            Event.input FieldId.username "ann_01",
            Event.input FieldId.email "a@b.co",
            Event.input FieldId.password "Strong1!",
            Event.input FieldId.confirmPassword "Strong1!",
            Event.submitSignup]).1).1.st.authError = "User already exists") := by
  exact (signup_failure_shows_error_stays
    (run [Event.clickSwitch View.signup none,
          Event.input FieldId.username "ann_01",
          Event.input FieldId.email "a@b.co",
          Event.input FieldId.password "Strong1!",
          Event.input FieldId.confirmPassword "Strong1!",
          Event.submitSignup]).1
    { code := "UsernameExistsException", message := "User already exists" }
    "ann_01" "Strong1!" "a@b.co" (by decide)).2.1

/-- C4 amended: classification of an authenticate failure uses only the
provider-reported code.  Any failure whose code is not
`UserNotConfirmedException` — whatever its message says — leaves the view
unchanged, issues no call, and surfaces `err.message` verbatim (or the
default when the message is empty) as the top-level error. -/
theorem classification_code_only (s : SysState) (err : CogErr) (u p : String)
    (hpend : s.pending = some (PendingCall.auth u p))
    (hcode : err.code ≠ "UserNotConfirmedException") :
    ((dispatch (Event.completeAuth (CallResult.fail err)) s).1.st.currentView
        = s.st.currentView) ∧
    ((dispatch (Event.completeAuth (CallResult.fail err)) s).1.st.authError
        = errMsgOr err.message "Login failed. Please try again.") ∧
    ((dispatch (Event.completeAuth (CallResult.fail err)) s).2 = []) := by
  simp [dispatch, doCompleteAuth, hpend, hcode]

/-- Witness for `classification_code_only`: a code-less failure whose
message mentions "not confirmed" still surfaces verbatim with no
transition. -/
theorem classification_code_only_witness :
    ((dispatch (Event.completeAuth (CallResult.fail
        { code := "", message := "User is not confirmed." }))
      (run [Event.input FieldId.username "ann_01",
            Event.input FieldId.password "x",
            Event.submitLogin]).1).1.st.authError = "User is not confirmed.") := by
  exact (classification_code_only
    (run [Event.input FieldId.username "ann_01",
          Event.input FieldId.password "x",
          Event.submitLogin]).1
    { code := "", message := "User is not confirmed." }
    "ann_01" "x" (by decide) (by decide)).2.1

/-- C3 amended: mode-switch navigation never touches the form fields —
password and identifier survive every switch; password-bearing fields are
cleared only by the deferred transitions after a successful verification
(`verificationCode`, `password`) and after a successful password reset
(`resetCode`, `newPassword`, `password`), both landing in login. -/
theorem switch_preserves_fields_deferred_clears :
    (∀ (s : SysState) (v : View) (extra : Option Bool),
      (dispatch (Event.clickSwitch v extra) s).1.st.formData = s.st.formData) ∧
    (∀ s : SysState, s.timer = some TimerKind.verifyDone →
      (dispatch Event.timerFire s).1.st.formData
          = { s.st.formData with verificationCode := "", password := "" } ∧
      (dispatch Event.timerFire s).1.st.currentView = View.login) ∧
    (∀ s : SysState, s.timer = some TimerKind.resetDone →
      (dispatch Event.timerFire s).1.st.formData
          = { s.st.formData with resetCode := "", newPassword := "", password := "" } ∧
      (dispatch Event.timerFire s).1.st.currentView = View.login ∧
      (dispatch Event.timerFire s).1.st.resetCodeSent = false) := by
  refine ⟨?_, ?_, ?_⟩
  · intro s v extra
    simp only [dispatch, doClickSwitch, viewEffect]
    split <;> rfl
  · intro s h
    simp only [dispatch, doTimerFire, h, viewEffect]
    exact ⟨by trivial, by trivial⟩
  · intro s h
    simp only [dispatch, doTimerFire, h, viewEffect]
    exact ⟨by trivial, by trivial, by trivial⟩

/-- Witness for `switch_preserves_fields_deferred_clears`: fields survive
a login-to-signup switch with a typed password, and a fired
verification timer clears the code and password. -/
theorem switch_preserves_fields_witness :
    (dispatch (Event.clickSwitch View.signup none)
        (run [Event.input FieldId.username "ann",
              Event.input FieldId.password "secret"]).1).1.st.formData
      = (run [Event.input FieldId.username "ann",
              Event.input FieldId.password "secret"]).1.st.formData ∧
    (dispatch Event.timerFire
        { initialState with timer := some TimerKind.verifyDone }).1.st.currentView
      = View.login := by
  constructor
  · exact switch_preserves_fields_deferred_clears.1
      (run [Event.input FieldId.username "ann",
            Event.input FieldId.password "secret"]).1 View.signup none
  · exact (switch_preserves_fields_deferred_clears.2.1
      { initialState with timer := some TimerKind.verifyDone } (by decide)).2

/-- C6: every available mode-switch navigation (an enabled, rendered
switch button), from any state, resets all transient status — the
top-level error, the top-level success message and every field-scoped
error are empty upon entering the target mode. -/
theorem mode_switch_clears_transient (s : SysState) (v : View) (extra : Option Bool)
    (hload : s.st.isLoading = false) (hnav : navAvailable s.st v extra = true) :
    (dispatch (Event.clickSwitch v extra) s).1.st.authError = "" ∧
    (dispatch (Event.clickSwitch v extra) s).1.st.successMessage = "" ∧
    (dispatch (Event.clickSwitch v extra) s).1.st.errors = noErrors := by
  have hne : ¬ (v = s.st.currentView) := by
    intro heq
    subst heq
    revert hnav
    unfold navAvailable
    cases hv : s.st.currentView <;> simp
  simp only [dispatch, doClickSwitch, viewEffect]
  rw [if_pos ⟨hload, hnav⟩]
  exact ⟨if_neg hne, if_neg hne, if_neg hne⟩

/-- Witness for `mode_switch_clears_transient`: switching to signup from a
login state carrying a visible error message clears it. -/
theorem mode_switch_clears_witness :
    (dispatch (Event.clickSwitch View.signup none)
      (run [Event.input FieldId.username "ann_01",
            Event.input FieldId.password "x",
            Event.submitLogin,
            Event.completeAuth (CallResult.fail
              { code := "", message := "User is not confirmed." })]).1).1.st.authError
      = "" := by
  exact (mode_switch_clears_transient
    (run [Event.input FieldId.username "ann_01",
          Event.input FieldId.password "x",
          Event.submitLogin,
          Event.completeAuth (CallResult.fail
            { code := "", message := "User is not confirmed." })]).1
    View.signup none (by decide) (by decide)).1

/-- The view-change effect clears both top-level messages whenever the
view actually changed. -/
theorem viewEffect_clears (old : View) (st : AuthState) (h : ¬ (st.currentView = old)) :
    (viewEffect old st).authError = "" ∧ (viewEffect old st).successMessage = "" := by
  unfold viewEffect
  exact ⟨if_neg h, if_neg h⟩

/-- C5 amended: mutual exclusivity of the top-level error and success
messages is not an invariant of the controller (a failing resend right
after a successful one leaves both non-empty); what does hold is that
every event whose net effect enters a different view clears both
messages, restoring exclusivity on every mode change. -/
theorem view_change_clears_messages (s : SysState) (e : Event)
    (hchange : ¬ ((dispatch e s).1.st.currentView = s.st.currentView)) :
    (dispatch e s).1.st.authError = "" ∧
    (dispatch e s).1.st.successMessage = "" := by
  revert hchange
  cases e with
  | input fld v =>
    simp only [dispatch, doInput]
    split <;> (intro h; exact absurd rfl h)
  | submitLogin =>
    simp only [dispatch, doSubmitLogin]
    split
    · split <;> (intro h; exact absurd rfl h)
    · intro h; exact absurd rfl h
  | submitSignup =>
    simp only [dispatch, doSubmitSignup]
    split
    · split <;> (intro h; exact absurd rfl h)
    · intro h; exact absurd rfl h
  | submitVerification =>
    simp only [dispatch, doSubmitVerification]
    split
    · split <;> (intro h; exact absurd rfl h)
    · intro h; exact absurd rfl h
  | submitForgotRequest =>
    simp only [dispatch, doSubmitForgotRequest]
    split
    · split <;> (intro h; exact absurd rfl h)
    · intro h; exact absurd rfl h
  | submitResetPassword =>
    simp only [dispatch, doSubmitResetPassword]
    split
    · split <;> (intro h; exact absurd rfl h)
    · intro h; exact absurd rfl h
  | clickResend =>
    simp only [dispatch, doClickResend, resendCore]
    split <;> (intro h; exact absurd rfl h)
  | clickSwitch v extra =>
    simp only [dispatch, doClickSwitch]
    split
    · dsimp only
      intro h
      exact viewEffect_clears _ _ h
    · intro h; exact absurd rfl h
  | completeAuth r =>
    simp only [dispatch, doCompleteAuth]
    cases hp : s.pending with
    | none => intro h; exact absurd rfl h
    | some pc =>
      cases pc with
      | auth u pw =>
        cases r with
        | ok => intro h; exact absurd rfl h
        | fail err =>
          dsimp only
          split
          · intro h
            exact viewEffect_clears _ _ h
          · intro h; exact absurd rfl h
      | signup u pw em => intro h; exact absurd rfl h
      | confirmReg u c => intro h; exact absurd rfl h
      | forgot u => intro h; exact absurd rfl h
      | confirmReset u c n => intro h; exact absurd rfl h
  | completeSignup r =>
    simp only [dispatch, doCompleteSignup]
    cases hp : s.pending with
    | none => intro h; exact absurd rfl h
    | some pc =>
      cases pc with
      | signup u pw em =>
        cases r with
        | fail err => intro h; exact absurd rfl h
        | ok =>
          dsimp only
          intro h
          exact viewEffect_clears _ _ h
      | auth u pw => intro h; exact absurd rfl h
      | confirmReg u c => intro h; exact absurd rfl h
      | forgot u => intro h; exact absurd rfl h
      | confirmReset u c n => intro h; exact absurd rfl h
  | completeVerification r =>
    simp only [dispatch, doCompleteVerification]
    cases hp : s.pending with
    | none => intro h; exact absurd rfl h
    | some pc =>
      cases pc with
      | confirmReg u c =>
        cases r with
        | fail err => intro h; exact absurd rfl h
        | ok => intro h; exact absurd rfl h
      | auth u pw => intro h; exact absurd rfl h
      | signup u pw em => intro h; exact absurd rfl h
      | forgot u => intro h; exact absurd rfl h
      | confirmReset u c n => intro h; exact absurd rfl h
  | completeForgot r =>
    simp only [dispatch, doCompleteForgot]
    cases hp : s.pending with
    | none => intro h; exact absurd rfl h
    | some pc =>
      cases pc with
      | forgot u =>
        cases r with
        | fail err => intro h; exact absurd rfl h
        | ok => intro h; exact absurd rfl h
      | auth u pw => intro h; exact absurd rfl h
      | signup u pw em => intro h; exact absurd rfl h
      | confirmReg u c => intro h; exact absurd rfl h
      | confirmReset u c n => intro h; exact absurd rfl h
  | completeReset r =>
    simp only [dispatch, doCompleteReset]
    cases hp : s.pending with
    | none => intro h; exact absurd rfl h
    | some pc =>
      cases pc with
      | confirmReset u c n =>
        cases r with
        | fail err => intro h; exact absurd rfl h
        | ok => intro h; exact absurd rfl h
      | auth u pw => intro h; exact absurd rfl h
      | signup u pw em => intro h; exact absurd rfl h
      | confirmReg u c => intro h; exact absurd rfl h
      | forgot u => intro h; exact absurd rfl h
  | completeResend r =>
    simp only [dispatch, doCompleteResend]
    split
    · cases r with
      | ok => intro h; exact absurd rfl h
      | fail err => intro h; exact absurd rfl h
    · intro h; exact absurd rfl h
  | timerFire =>
    simp only [dispatch, doTimerFire]
    cases ht : s.timer with
    | none => intro h; exact absurd rfl h
    | some k =>
      cases k with
      | verifyDone =>
        dsimp only
        intro h
        exact viewEffect_clears _ _ h
      | resetDone =>
        dsimp only
        intro h
        exact viewEffect_clears _ _ h

/-- Witness for `view_change_clears_messages`: the signup-success
transition into verification leaves no messages. -/
theorem view_change_clears_witness :
    (dispatch (Event.completeSignup CallResult.ok)
      (run [Event.clickSwitch View.signup none,
            Event.input FieldId.username "ann_01",
            Event.input FieldId.email "a@b.co",
            Event.input FieldId.password "Strong1!",
            Event.input FieldId.confirmPassword "Strong1!",
            Event.submitSignup]).1).1.st.authError = "" := by
  exact (view_change_clears_messages
    (run [Event.clickSwitch View.signup none,
          Event.input FieldId.username "ann_01",
          Event.input FieldId.email "a@b.co",
          Event.input FieldId.password "Strong1!",
          Event.input FieldId.confirmPassword "Strong1!",
          Event.submitSignup]).1
    (Event.completeSignup CallResult.ok) (by decide)).1

/-- C8 amended: the reset-request submit guards only on presence — an
empty trimmed identifier sets the field-scoped username error and makes no
gateway call, while any non-empty trimmed identifier (valid or not)
issues exactly the `requestPasswordReset` call; on gateway success the
flow enters the reset-confirm phase (`resetCodeSent` raised) and on
failure it stays in the request phase with the error message shown. -/
theorem reset_request_presence_guard :
    (∀ s : SysState, s.st.currentView = View.forgotPassword →
      s.st.resetCodeSent = false → s.st.isLoading = false →
      jsTrim s.st.formData.username = "" →
      (dispatch Event.submitForgotRequest s).2 = [] ∧
      (dispatch Event.submitForgotRequest s).1.st.errors.username = "Username is required" ∧
      (dispatch Event.submitForgotRequest s).1.st.isLoading = false) ∧
    (∀ s : SysState, s.st.currentView = View.forgotPassword →
      s.st.resetCodeSent = false → s.st.isLoading = false →
      ¬ (jsTrim s.st.formData.username = "") →
      (dispatch Event.submitForgotRequest s).2
          = [GatewayCall.requestPasswordReset (jsTrim s.st.formData.username)] ∧
      (dispatch Event.submitForgotRequest s).1.st.isLoading = true) ∧
    (∀ (s : SysState) (u : String), s.pending = some (PendingCall.forgot u) →
      (dispatch (Event.completeForgot CallResult.ok) s).1.st.resetCodeSent = true ∧
      (dispatch (Event.completeForgot CallResult.ok) s).1.st.isLoading = false ∧
      (dispatch (Event.completeForgot CallResult.ok) s).1.st.successMessage
          = "Reset code sent to your email.") ∧
    (∀ (s : SysState) (u : String) (err : CogErr),
      s.pending = some (PendingCall.forgot u) →
      (dispatch (Event.completeForgot (CallResult.fail err)) s).1.st.resetCodeSent
          = s.st.resetCodeSent ∧
      (dispatch (Event.completeForgot (CallResult.fail err)) s).1.st.isLoading = false ∧
      (dispatch (Event.completeForgot (CallResult.fail err)) s).1.st.authError
          = errMsgOr err.message "Failed to send reset code. Please try again.") := by
  refine ⟨?_, ?_, ?_, ?_⟩
  · intro s h1 h2 h3 h4
    simp [dispatch, doSubmitForgotRequest, h1, h2, h3, h4]
  · intro s h1 h2 h3 h4
    simp [dispatch, doSubmitForgotRequest, h1, h2, h3, h4]
  · intro s u h
    simp [dispatch, doCompleteForgot, h]
  · intro s u err h
    simp [dispatch, doCompleteForgot, h]

/-- Witness for `reset_request_presence_guard`: the presence-only guard
lets the syntactically invalid identifier `"a!"` through to the gateway. -/
theorem reset_request_presence_witness :
    (dispatch Event.submitForgotRequest
      (run [Event.clickSwitch View.forgotPassword none,
            Event.input FieldId.username "a!"]).1).2
      = [GatewayCall.requestPasswordReset "a!"] := by
  exact (reset_request_presence_guard.2.1
    (run [Event.clickSwitch View.forgotPassword none,
          Event.input FieldId.username "a!"]).1
    (by decide) (by decide) (by decide) (by decide)).1

/-- C9: single-flight discipline.  (1) Every event preserves the
invariant that an in-flight form call implies the loading flag;
(2) while the loading flag is up, every submit event is ignored (the
submit buttons are disabled), so no second call is issued; (3) any event
other than the completion of the in-flight call leaves the pending call
and the loading flag untouched — the flag stays up from issue until the
result arrives. -/
theorem single_flight_loading :
    (∀ (s : SysState) (e : Event), loadInv s → loadInv (dispatch e s).1) ∧
    (∀ (s : SysState) (e : Event), isSubmitEvent e = true →
      s.st.isLoading = true → dispatch e s = (s, [])) ∧
    (∀ (s : SysState) (e : Event), loadInv s → s.pending.isSome = true →
      completesPending e s = false →
      (dispatch e s).1.pending = s.pending ∧
      (dispatch e s).1.st.isLoading = s.st.isLoading) := by
  refine ⟨?_, ?_, ?_⟩
  · intro s e hinv
    unfold loadInv at hinv ⊢
    cases e with
    | input fld v =>
      simp only [dispatch, doInput]
      split
      · exact hinv
      · exact hinv
    | submitLogin =>
      simp only [dispatch, doSubmitLogin]
      split
      · split
        · exact fun _ => rfl
        · exact hinv
      · exact hinv
    | submitSignup =>
      simp only [dispatch, doSubmitSignup]
      split
      · split
        · exact fun _ => rfl
        · exact hinv
      · exact hinv
    | submitVerification =>
      simp only [dispatch, doSubmitVerification]
      split
      · split
        · exact fun _ => rfl
        · exact hinv
      · exact hinv
    | submitForgotRequest =>
      simp only [dispatch, doSubmitForgotRequest]
      split
      · split
        · exact hinv
        · exact fun _ => rfl
      · exact hinv
    | submitResetPassword =>
      simp only [dispatch, doSubmitResetPassword]
      split
      · split
        · exact fun _ => rfl
        · exact hinv
      · exact hinv
    | clickResend =>
      simp only [dispatch, doClickResend]
      split
      · exact hinv
      · exact hinv
    | clickSwitch v extra =>
      simp only [dispatch, doClickSwitch]
      split
      · exact hinv
      · exact hinv
    | completeAuth r =>
      simp only [dispatch, doCompleteAuth]
      cases hp : s.pending with
      | none => exact hinv
      | some pc =>
        cases pc with
        | auth u pw =>
          cases r with
          | ok => exact fun h => Bool.noConfusion h
          | fail err =>
            dsimp only
            split
            · exact fun h => Bool.noConfusion h
            · exact fun h => Bool.noConfusion h
        | signup u pw em => exact hinv
        | confirmReg u c => exact hinv
        | forgot u => exact hinv
        | confirmReset u c n => exact hinv
    | completeSignup r =>
      simp only [dispatch, doCompleteSignup]
      cases hp : s.pending with
      | none => exact hinv
      | some pc =>
        cases pc with
        | signup u pw em =>
          cases r with
          | ok => exact fun h => Bool.noConfusion h
          | fail err => exact fun h => Bool.noConfusion h
        | auth u pw => exact hinv
        | confirmReg u c => exact hinv
        | forgot u => exact hinv
        | confirmReset u c n => exact hinv
    | completeVerification r =>
      simp only [dispatch, doCompleteVerification]
      cases hp : s.pending with
      | none => exact hinv
      | some pc =>
        cases pc with
        | confirmReg u c =>
          cases r with
          | ok => exact fun h => Bool.noConfusion h
          | fail err => exact fun h => Bool.noConfusion h
        | auth u pw => exact hinv
        | signup u pw em => exact hinv
        | forgot u => exact hinv
        | confirmReset u c n => exact hinv
    | completeForgot r =>
      simp only [dispatch, doCompleteForgot]
      cases hp : s.pending with
      | none => exact hinv
      | some pc =>
        cases pc with
        | forgot u =>
          cases r with
          | ok => exact fun h => Bool.noConfusion h
          | fail err => exact fun h => Bool.noConfusion h
        | auth u pw => exact hinv
        | signup u pw em => exact hinv
        | confirmReg u c => exact hinv
        | confirmReset u c n => exact hinv
    | completeReset r =>
      simp only [dispatch, doCompleteReset]
      cases hp : s.pending with
      | none => exact hinv
      | some pc =>
        cases pc with
        | confirmReset u c n =>
          cases r with
          | ok => exact fun h => Bool.noConfusion h
          | fail err => exact fun h => Bool.noConfusion h
        | auth u pw => exact hinv
        | signup u pw em => exact hinv
        | confirmReg u c => exact hinv
        | forgot u => exact hinv
    | completeResend r =>
      simp only [dispatch, doCompleteResend]
      split
      · cases r with
        | ok => exact hinv
        | fail err => exact hinv
      · exact hinv
    | timerFire =>
      simp only [dispatch, doTimerFire]
      cases ht : s.timer with
      | none => exact hinv
      | some k =>
        cases k with
        | verifyDone => exact hinv
        | resetDone => exact hinv
  · intro s e hsub hload
    cases e <;>
      simp_all [dispatch, isSubmitEvent, doSubmitLogin, doSubmitSignup,
        doSubmitVerification, doSubmitForgotRequest, doSubmitResetPassword]
  · intro s e hinv hsome hcp
    have hload : s.st.isLoading = true := hinv hsome
    cases e with
    | input fld v =>
      simp only [dispatch, doInput]
      split
      · exact ⟨rfl, rfl⟩
      · exact ⟨rfl, rfl⟩
    | submitLogin =>
      simp [dispatch, doSubmitLogin, hload]
    | submitSignup =>
      simp [dispatch, doSubmitSignup, hload]
    | submitVerification =>
      simp [dispatch, doSubmitVerification, hload]
    | submitForgotRequest =>
      simp [dispatch, doSubmitForgotRequest, hload]
    | submitResetPassword =>
      simp [dispatch, doSubmitResetPassword, hload]
    | clickResend =>
      simp [dispatch, doClickResend, hload]
    | clickSwitch v extra =>
      simp [dispatch, doClickSwitch, hload, viewEffect]
    | completeAuth r =>
      simp only [dispatch, doCompleteAuth]
      cases hp : s.pending with
      | none => exact ⟨hp, rfl⟩
      | some pc =>
        cases pc with
        | auth u pw =>
          exact absurd hcp (by simp [completesPending, hp])
        | signup u pw em => exact ⟨hp, rfl⟩
        | confirmReg u c => exact ⟨hp, rfl⟩
        | forgot u => exact ⟨hp, rfl⟩
        | confirmReset u c n => exact ⟨hp, rfl⟩
    | completeSignup r =>
      simp only [dispatch, doCompleteSignup]
      cases hp : s.pending with
      | none => exact ⟨hp, rfl⟩
      | some pc =>
        cases pc with
        | signup u pw em =>
          exact absurd hcp (by simp [completesPending, hp])
        | auth u pw => exact ⟨hp, rfl⟩
        | confirmReg u c => exact ⟨hp, rfl⟩
        | forgot u => exact ⟨hp, rfl⟩
        | confirmReset u c n => exact ⟨hp, rfl⟩
    | completeVerification r =>
      simp only [dispatch, doCompleteVerification]
      cases hp : s.pending with
      | none => exact ⟨hp, rfl⟩
      | some pc =>
        cases pc with
        | confirmReg u c =>
          exact absurd hcp (by simp [completesPending, hp])
        | auth u pw => exact ⟨hp, rfl⟩
        | signup u pw em => exact ⟨hp, rfl⟩
        | forgot u => exact ⟨hp, rfl⟩
        | confirmReset u c n => exact ⟨hp, rfl⟩
    | completeForgot r =>
      simp only [dispatch, doCompleteForgot]
      cases hp : s.pending with
      | none => exact ⟨hp, rfl⟩
      | some pc =>
        cases pc with
        | forgot u =>
          exact absurd hcp (by simp [completesPending, hp])
        | auth u pw => exact ⟨hp, rfl⟩
        | signup u pw em => exact ⟨hp, rfl⟩
        | confirmReg u c => exact ⟨hp, rfl⟩
        | confirmReset u c n => exact ⟨hp, rfl⟩
    | completeReset r =>
      simp only [dispatch, doCompleteReset]
      cases hp : s.pending with
      | none => exact ⟨hp, rfl⟩
      | some pc =>
        cases pc with
        | confirmReset u c n =>
          exact absurd hcp (by simp [completesPending, hp])
        | auth u pw => exact ⟨hp, rfl⟩
        | signup u pw em => exact ⟨hp, rfl⟩
        | confirmReg u c => exact ⟨hp, rfl⟩
        | forgot u => exact ⟨hp, rfl⟩
    | completeResend r =>
      simp only [dispatch, doCompleteResend]
      split
      · cases r with
        | ok => exact ⟨rfl, rfl⟩
        | fail err => exact ⟨rfl, rfl⟩
      · exact ⟨rfl, rfl⟩
    | timerFire =>
      simp only [dispatch, doTimerFire]
      cases ht : s.timer with
      | none => exact ⟨rfl, rfl⟩
      | some k =>
        cases k with
        | verifyDone => exact ⟨rfl, rfl⟩
        | resetDone => exact ⟨rfl, rfl⟩

/-- Witness for `single_flight_loading` at concrete states: the invariant
survives a concrete submit, a submit during loading is a no-op, and an
input event during an in-flight login call leaves the call and the flag
alone. -/
theorem single_flight_witness :
    loadInv (dispatch Event.submitLogin
      (run [Event.input FieldId.username "ann_01",
            Event.input FieldId.password "x",
            Event.submitLogin]).1).1 ∧
    dispatch Event.submitSignup
      (run [Event.input FieldId.username "ann_01",
            Event.input FieldId.password "x",
            Event.submitLogin]).1
      = ((run [Event.input FieldId.username "ann_01",
               Event.input FieldId.password "x",
               Event.submitLogin]).1, []) ∧
    (dispatch (Event.input FieldId.username "ann")
      (run [Event.input FieldId.username "ann_01",
            Event.input FieldId.password "x",
            Event.submitLogin]).1).1.pending
      = (run [Event.input FieldId.username "ann_01",
              Event.input FieldId.password "x",
              Event.submitLogin]).1.pending := by
  refine ⟨?_, ?_, ?_⟩
  · exact single_flight_loading.1
      (run [Event.input FieldId.username "ann_01",
            Event.input FieldId.password "x",
            Event.submitLogin]).1 Event.submitLogin (fun _ => by decide)
  · exact single_flight_loading.2.1
      (run [Event.input FieldId.username "ann_01",
            Event.input FieldId.password "x",
            Event.submitLogin]).1 Event.submitSignup (by decide) (by decide)
  · exact (single_flight_loading.2.2
      (run [Event.input FieldId.username "ann_01",
            Event.input FieldId.password "x",
            Event.submitLogin]).1 (Event.input FieldId.username "ann")
      (fun _ => by decide) (by decide) (by decide)).1

/-- The head surviving a `dropWhile` fails the predicate. -/
theorem head?_dropWhile_ws {α : Type} (p : α → Bool) (l : List α) (a : α)
    (h : (l.dropWhile p).head? = some a) : p a = false := by
  have hx := List.head?_dropWhile_not p l
  rw [h] at hx
  exact hx

/-- A non-empty `dropWhile` keeps the original last element. -/
theorem getLast?_dropWhile {α : Type} (p : α → Bool) (l : List α)
    (h : ¬ (l.dropWhile p = [])) : (l.dropWhile p).getLast? = l.getLast? := by
  conv_rhs => rw [← List.takeWhile_append_dropWhile (p := p) (l := l)]
  rw [List.getLast?_append]
  cases hg : (l.dropWhile p).getLast? with
  | none => exact absurd (List.getLast?_eq_none_iff.mp hg) h
  | some b => rfl

/-- The first character of a trimmed list is not whitespace. -/
theorem trimChars_head (l : List Char) (a : Char)
    (h : (trimChars l).head? = some a) : isWSChar a = false := by
  unfold trimChars at h
  rw [List.head?_reverse] at h
  by_cases hne : ((l.dropWhile isWSChar).reverse.dropWhile isWSChar) = []
  · rw [hne] at h
    simp at h
  · rw [getLast?_dropWhile _ _ hne] at h
    rw [List.getLast?_reverse] at h
    exact head?_dropWhile_ws _ _ _ h

/-- The last character of a trimmed list is not whitespace. -/
theorem trimChars_last (l : List Char) (a : Char)
    (h : (trimChars l).getLast? = some a) : isWSChar a = false := by
  unfold trimChars at h
  rw [List.getLast?_reverse] at h
  exact head?_dropWhile_ws _ _ _ h

/-- `jsTrim` output carries no edge whitespace. -/
theorem jsTrim_noEdgeWS (s : String) : noEdgeWS (jsTrim s) = true := by
  unfold noEdgeWS jsTrim
  rw [Bool.and_eq_true]
  constructor
  · cases hh : (trimChars s.data).head? with
    | none => simp [hh]
    | some a => simp [hh, trimChars_head _ _ hh]
  · cases hh : (trimChars s.data).getLast? with
    | none => simp [hh]
    | some a => simp [hh, trimChars_last _ _ hh]

/-- `lowerAscii` never yields an ASCII uppercase letter. -/
theorem lowerAscii_not_upper (c : Char) : (lowerAscii c).isUpper = false := by
  unfold lowerAscii
  split
  · rename_i h
    simp only [Char.isUpper, Bool.and_eq_true, decide_eq_true_eq] at h
    obtain ⟨h1, h2⟩ := h
    have h90 : (90 : UInt32).toBitVec.toNat = 90 := by decide
    have h65 : (65 : UInt32).toBitVec.toNat = 65 := by decide
    have h2n : c.val.toBitVec.toNat ≤ 90 := by
      rw [UInt32.le_def, BitVec.le_def, h90] at h2
      exact h2
    have h1n : 65 ≤ c.val.toBitVec.toNat := by
      rw [ge_iff_le, UInt32.le_def, BitVec.le_def, h65] at h1
      exact h1
    have hcn : c.toNat = c.val.toBitVec.toNat := rfl
    have hval : (c.toNat + 32).isValidChar := Or.inl (by rw [hcn]; omega)
    rw [Char.ofNat, dif_pos hval]
    unfold Char.ofNatAux Char.isUpper
    simp only [Bool.and_eq_false_iff, decide_eq_false_iff_not, UInt32.le_def, BitVec.le_def]
    right
    simp only [BitVec.toNat_ofNatLt, h90]
    rw [hcn]
    omega
  · rename_i h
    simp only [Bool.not_eq_true] at h
    exact h

/-- `jsToLower` output contains no ASCII uppercase letter. -/
theorem jsToLower_noUpper (s : String) :
    (jsToLower s).data.all (fun c => !c.isUpper) = true := by
  unfold jsToLower
  rw [List.all_eq_true]
  intro c hc
  rw [List.mem_map] at hc
  obtain ⟨a, _, ha⟩ := hc
  rw [← ha]
  simp [lowerAscii_not_upper]

/-- C10: every identifier handed to the identity authority is trimmed
(no edge whitespace); every register call carries the trimmed typed
username and the trimmed, lowercased typed email, which contains no ASCII
uppercase letter; and every form submit sends exactly the trimmed typed
username as the identifier. -/
theorem gateway_trimmed_lowercased :
    (∀ (s : SysState) (e : Event) (c : GatewayCall), c ∈ (dispatch e s).2 →
      noEdgeWS (callIdent c) = true) ∧
    (∀ (s : SysState) (e : Event) (u p em : String),
      GatewayCall.register u p em ∈ (dispatch e s).2 →
      u = jsTrim s.st.formData.username ∧
      em = jsToLower (jsTrim s.st.formData.email) ∧
      em.data.all (fun ch => !ch.isUpper) = true) ∧
    (∀ (s : SysState) (e : Event) (c : GatewayCall), isSubmitEvent e = true →
      c ∈ (dispatch e s).2 → callIdent c = jsTrim s.st.formData.username) := by
  refine ⟨?_, ?_, ?_⟩
  · intro s e c hc
    cases e <;>
      simp only [dispatch, doInput, doSubmitLogin, doSubmitSignup, doSubmitVerification,
        doSubmitForgotRequest, doSubmitResetPassword, doClickResend, doClickSwitch,
        doCompleteAuth, doCompleteSignup, doCompleteVerification, doCompleteForgot,
        doCompleteReset, doCompleteResend, doTimerFire, resendCore] at hc <;>
      (repeat' split at hc) <;>
      simp at hc <;>
      (try subst hc) <;>
      exact jsTrim_noEdgeWS _
  · intro s e u p em hreg
    cases e <;>
      simp only [dispatch, doInput, doSubmitLogin, doSubmitSignup, doSubmitVerification,
        doSubmitForgotRequest, doSubmitResetPassword, doClickResend, doClickSwitch,
        doCompleteAuth, doCompleteSignup, doCompleteVerification, doCompleteForgot,
        doCompleteReset, doCompleteResend, doTimerFire, resendCore] at hreg <;>
      (repeat' split at hreg) <;>
      simp at hreg
    obtain ⟨hu, hp2, hem⟩ := hreg
    subst hu
    subst hem
    exact ⟨rfl, rfl, jsToLower_noUpper _⟩
  · intro s e c hsub hc
    cases e with
    | submitLogin =>
      simp only [dispatch, doSubmitLogin] at hc
      (repeat' split at hc) <;> simp at hc
      subst hc
      rfl
    | submitSignup =>
      simp only [dispatch, doSubmitSignup] at hc
      (repeat' split at hc) <;> simp at hc
      subst hc
      rfl
    | submitVerification =>
      simp only [dispatch, doSubmitVerification] at hc
      (repeat' split at hc) <;> simp at hc
      subst hc
      rfl
    | submitForgotRequest =>
      simp only [dispatch, doSubmitForgotRequest] at hc
      (repeat' split at hc) <;> simp at hc
      subst hc
      rfl
    | submitResetPassword =>
      simp only [dispatch, doSubmitResetPassword] at hc
      (repeat' split at hc) <;> simp at hc
      subst hc
      rfl
    | input fld v => exact absurd hsub (by simp [isSubmitEvent])
    | clickResend => exact absurd hsub (by simp [isSubmitEvent])
    | clickSwitch v extra => exact absurd hsub (by simp [isSubmitEvent])
    | completeAuth r => exact absurd hsub (by simp [isSubmitEvent])
    | completeSignup r => exact absurd hsub (by simp [isSubmitEvent])
    | completeVerification r => exact absurd hsub (by simp [isSubmitEvent])
    | completeForgot r => exact absurd hsub (by simp [isSubmitEvent])
    | completeReset r => exact absurd hsub (by simp [isSubmitEvent])
    | completeResend r => exact absurd hsub (by simp [isSubmitEvent])
    | timerFire => exact absurd hsub (by simp [isSubmitEvent])

/-- Witness for `gateway_trimmed_lowercased` on a concrete signup: the
register call carries `"ann_01"` and the lowercased trimmed email. -/
theorem gateway_trimmed_witness :
    noEdgeWS (callIdent (GatewayCall.register "ann_01" "Strong1!" "ann@x.com")) = true ∧
    ("ann@x.com" : String).data.all (fun ch => !ch.isUpper) = true := by
  constructor
  · exact gateway_trimmed_lowercased.1
      (run [Event.clickSwitch View.signup none,
            Event.input FieldId.username "ann_01",
            Event.input FieldId.email "Ann@X.CoM",
            Event.input FieldId.password "Strong1!",
            Event.input FieldId.confirmPassword "Strong1!"]).1
      Event.submitSignup
      (GatewayCall.register "ann_01" "Strong1!" "ann@x.com") (by decide)
  · exact (gateway_trimmed_lowercased.2.1
      (run [Event.clickSwitch View.signup none,
            Event.input FieldId.username "ann_01",
            Event.input FieldId.email "Ann@X.CoM",
            Event.input FieldId.password "Strong1!",
            Event.input FieldId.confirmPassword "Strong1!"]).1
      Event.submitSignup
      "ann_01" "Strong1!" "ann@x.com" (by decide)).2.2
